import Mathlib

/-!
Shallow embedding of the chat/analytics backend of the `emotions` repository
(`src/backend/services/chat/chatService.js`, `intentAnalyze.js`, and the chart
generator module appended to `chatService.js`).

Conventions of the embedding:
* JavaScript values that may be `null`/`undefined` are `Option` values.
* JavaScript truthiness on strings (`"" `is falsy) and numbers (`0` is falsy)
  is modelled explicitly by `truthyStr` / `truthyNum`.
* `dayjs` calendar arithmetic (`subtract(n, 'day'|'week'|'month'|'year')`,
  `format('YYYY-MM-DD')`) is modelled on a proleptic-Gregorian `Date`
  structure; month/year subtraction clamps the day-of-month exactly as dayjs
  does.
* The JavaScript `Date`-string parser used by `new Date(s)` is abstracted as a
  predicate parameter `parses : String → Bool` where a claim does not depend
  on the concrete grammar; `isValidDateString` is a concrete member of that
  family (strict `YYYY-MM-DD`, a format `new Date` accepts) used for closed
  evaluations.
* Database tables are lists of rows; Supabase query chains are translated to
  the corresponding pure list operations (filter / stable sort / take).
* External model calls are abstracted as oracle parameters, and where a claim
  is about which calls happen, the handler is modelled as a trace of events.
-/

namespace Emotions

/-! ## JavaScript value helpers -/

/-- Truthiness of an optional string: `null`/`undefined` and `""` are falsy. -/
def truthyStr : Option String → Bool
  | none => false
  | some s => !s.isEmpty

/-- Truthiness of an optional integer: `null`/`undefined` and `0` are falsy. -/
def truthyNum : Option Int → Bool
  | none => false
  | some n => n != 0

/-- JS `a || b` for an optional string `a` and default `b`. -/
def jsOrStr (a : Option String) (b : String) : String :=
  if truthyStr a then a.getD "" else b

/-- JS `a || b` for an optional integer `a` and default `b`. -/
def jsOrNum (a : Option Int) (b : Int) : Int :=
  if truthyNum a then a.getD 0 else b

/-- Substring search on character lists: JS `String.prototype.includes`. -/
def listContainsSub (pat : List Char) : List Char → Bool
  | [] => pat.isEmpty
  | c :: rest => (pat.isPrefixOf (c :: rest)) || listContainsSub pat rest

/-- JS `s.includes(pat)`. -/
def strIncludes (s pat : String) : Bool :=
  listContainsSub pat.data s.data

/-- Model of `String.prototype.toLowerCase`, character-wise. The keywords the code
compares against are Korean syllables and ASCII letters, for which Unicode
lowercasing is exactly ASCII lowercasing. -/
def charToLower (c : Char) : Char :=
  if 65 ≤ c.toNat && c.toNat ≤ 90 then Char.ofNat (c.toNat + 32) else c

def strToLower (s : String) : String :=
  ⟨s.data.map charToLower⟩

/-! ## Calendar dates (model of dayjs date arithmetic)

`toDayNumber`/`ofDayNumber` follow the standard civil-from-days /
days-from-civil algorithm, written with floor division (`Int.fdiv`). -/

structure Date where
  year : Int
  month : Int
  day : Int
deriving Repr, DecidableEq

def isLeap (y : Int) : Bool :=
  y % 4 == 0 && (y % 100 != 0 || y % 400 == 0)

def daysInMonth (y m : Int) : Int :=
  if m == 2 then (if isLeap y then 29 else 28)
  else if m == 4 || m == 6 || m == 9 || m == 11 then 30
  else 31

/-- Days since 1970-01-01 of a civil date. -/
def Date.toDayNumber (d : Date) : Int :=
  let y := d.year - (if d.month ≤ 2 then 1 else 0)
  let era := Int.fdiv y 400
  let yoe := y - era * 400
  let mp := d.month + (if d.month > 2 then -3 else 9)
  let doy := Int.fdiv (153 * mp + 2) 5 + d.day - 1
  let doe := yoe * 365 + Int.fdiv yoe 4 - Int.fdiv yoe 100 + doy
  era * 146097 + doe - 719468

/-- Civil date of a days-since-1970-01-01 count. -/
def Date.ofDayNumber (z0 : Int) : Date :=
  let z := z0 + 719468
  let era := Int.fdiv z 146097
  let doe := z - era * 146097
  let yoe := Int.fdiv (doe - Int.fdiv doe 1460 + Int.fdiv doe 36524 - Int.fdiv doe 146096) 365
  let y := yoe + era * 400
  let doy := doe - (365 * yoe + Int.fdiv yoe 4 - Int.fdiv yoe 100)
  let mp := Int.fdiv (5 * doy + 2) 153
  let dd := doy - Int.fdiv (153 * mp + 2) 5 + 1
  let m := mp + (if mp < 10 then 3 else -9)
  { year := y + (if m ≤ 2 then 1 else 0), month := m, day := dd }

/-- Model of `dayjs().subtract(n, 'day')`. -/
def Date.subDays (d : Date) (n : Int) : Date :=
  Date.ofDayNumber (d.toDayNumber - n)

/-- Model of `dayjs().subtract(n, 'week')`. -/
def Date.subWeeks (d : Date) (n : Int) : Date :=
  d.subDays (7 * n)

/-- Model of `dayjs().subtract(n, 'month')`: month arithmetic with day-of-month
clamping, exactly dayjs semantics. -/
def Date.subMonths (d : Date) (n : Int) : Date :=
  let total := d.year * 12 + (d.month - 1) - n
  let y := Int.fdiv total 12
  let m := total - y * 12 + 1
  { year := y, month := m, day := min d.day (daysInMonth y m) }

/-- Model of `dayjs().subtract(n, 'year')` (clamps Feb 29 like dayjs). -/
def Date.subYears (d : Date) (n : Int) : Date :=
  d.subMonths (12 * n)

def pad2 (n : Int) : String :=
  if n < 10 then "0" ++ toString n else toString n

def pad4 (n : Int) : String :=
  if n < 10 then "000" ++ toString n
  else if n < 100 then "00" ++ toString n
  else if n < 1000 then "0" ++ toString n
  else toString n

/-- Model of `format('YYYY-MM-DD')`. -/
def Date.fmt (d : Date) : String :=
  pad4 d.year ++ "-" ++ pad2 d.month ++ "-" ++ pad2 d.day

/-! ## `intentAnalyze.js`: `calculateDateRange` -/

structure DateRange where
  fromDate : String
  toDate : String
deriving Repr, DecidableEq

/-- The function `calculateDateRange(periodType, periodValue)` from `intentAnalyze.js`
(lines 179-206). The code reads the current time as `dayjs()`; the embedding
takes that instant as the explicit parameter `now`. -/
def calculateDateRange (periodType : String) (periodValue : Int) (now : Date) :
    Option DateRange :=
  if periodType = "day" then
    some { fromDate := (now.subDays periodValue).fmt, toDate := now.fmt }
  else if periodType = "week" then
    some { fromDate := (now.subWeeks periodValue).fmt, toDate := now.fmt }
  else if periodType = "month" then
    some { fromDate := (now.subMonths periodValue).fmt, toDate := now.fmt }
  else if periodType = "year" then
    some { fromDate := (now.subYears periodValue).fmt, toDate := now.fmt }
  else
    none

/-- The subtraction of `periodValue` units of `periodType` from `now`, the
"now minus the stated amount" of the specification for the recognized period
types. -/
def subtractPeriod (periodType : String) (periodValue : Int) (now : Date) : Date :=
  if periodType = "day" then now.subDays periodValue
  else if periodType = "week" then now.subWeeks periodValue
  else if periodType = "month" then now.subMonths periodValue
  else if periodType = "year" then now.subYears periodValue
  else now

/-! ## Intent record (ephemeral, produced by `analyzeUserIntent` or its
fallback; consumed by `getData` and the handlers) -/

structure Intent where
  isAnalysisRequest : Bool
  needsRecords : Bool
  needsChatHistory : Bool
  needsChart : Bool
  isSimpleGreeting : Bool
  timeRange : Option String
  topic : Option String
  analysisType : Option String
  periodType : Option String
  periodValue : Option Int
  fromDate : Option String
  toDate : Option String
deriving Repr, DecidableEq

/-! ## `chatService.js`: `getData` window resolution (lines 507-541)

`getData` computes `fromDate`/`toDate` and then queries `records` between
them. The window computation is the pure part the claims are about. The
`today`/`yesterday` branches use `dayjs().tz('Asia/Seoul')` (`koreaNow`),
while the fallback branch calls `calculateDateRange`, which uses plain
`dayjs()` (`now`). In the fallback branch, when an intent date is falsy and
`calculateDateRange` returns `null`, the JS code throws a `TypeError`
(`null.fromDate`); the embedding returns `none` for that case. -/

def getDataWindow (intent : Intent) (koreaNow now : Date) :
    Option (String × String) :=
  if intent.timeRange = some "today" then
    some (koreaNow.fmt, koreaNow.fmt)
  else if intent.timeRange = some "yesterday" then
    some ((koreaNow.subDays 1).fmt, (koreaNow.subDays 1).fmt)
  else if intent.analysisType = some "custom" && truthyStr intent.fromDate
      && truthyStr intent.toDate then
    some (intent.fromDate.getD "", intent.toDate.getD "")
  else
    let pt := jsOrStr intent.periodType "month"
    let pv := jsOrNum intent.periodValue 1
    let fromPart := if truthyStr intent.fromDate then some (intent.fromDate.getD "")
      else (calculateDateRange pt pv now).map (·.fromDate)
    let toPart := if truthyStr intent.toDate then some (intent.toDate.getD "")
      else (calculateDateRange pt pv now).map (·.toDate)
    match fromPart, toPart with
    | some f, some t => some (f, t)
    | _, _ => none

/-! ## `chatService.js`: `selectChartTypeByRule` (lines 886-911) -/

def selectChartTypeByRule (question : String) : String :=
  let q := strToLower question
  if strIncludes q "변화" || strIncludes q "추이" || strIncludes q "흐름"
      || strIncludes q "패턴" then "line"
  else if strIncludes q "분포" || strIncludes q "빈도" || strIncludes q "얼마나"
      || strIncludes q "몇번" then "bar"
  else if strIncludes q "비율" || strIncludes q "구성" || strIncludes q "퍼센트"
      || strIncludes q "비중" then "pie"
  else if strIncludes q "비교" || strIncludes q "대조" || strIncludes q "vs"
      || strIncludes q "대비" then "radar"
  else "line"

/-- The specification's keyword-to-type table, written from the spec's words
("change/trend/flow/pattern → line; distribution/frequency/how much/how many
times → bar; ratio/composition/percentage/share → pie; compare/contrast/vs →
radar; default line", over the lowercased question), for comparison with the
code's `selectChartTypeByRule`. -/
def specChartTypeTable (question : String) : String :=
  let q := strToLower question
  let hasAny (kws : List String) : Bool := kws.any (fun k => strIncludes q k)
  if hasAny ["변화", "추이", "흐름", "패턴"] then "line"
  else if hasAny ["분포", "빈도", "얼마나", "몇번"] then "bar"
  else if hasAny ["비율", "구성", "퍼센트", "비중"] then "pie"
  else if hasAny ["비교", "대조", "vs", "대비"] then "radar"
  else "line"

/-! ## Chart generator module (`chartGenerator.js`, appended to
`chatService.js`, lines 829-1087): data rows and chart shaping -/

/-- A `records` row as selected by `getData`
(`date, title, notes, fatigue, emotion`). -/
structure Row where
  date : Option String
  title : Option String
  notes : Option String
  fatigue : Option Int
  emotion : Option String
deriving Repr, DecidableEq

/-- One emotion-count step of the `reduce` in `generateBarChart` /
`generatePieChart` / `generateRadarChart`: JS object insertion-order
semantics — first occurrence appends the key, later occurrences increment in
place. -/
def bump (acc : List (String × Nat)) (e : String) : List (String × Nat) :=
  if acc.any (fun p => p.1 = e) then
    acc.map (fun p => if p.1 = e then (p.1, p.2 + 1) else p)
  else
    acc ++ [(e, 1)]

/-- Model of `emotionData.reduce((acc, item) => { const emotion = item.emotion ||
'정보없음'; acc[emotion] = (acc[emotion] || 0) + 1; return acc; }, {})`,
with `Object.keys`/`Object.values` order = insertion order. -/
def emotionCounts (rows : List Row) : List (String × Nat) :=
  rows.foldl (fun acc r => bump acc (jsOrStr r.emotion "정보없음")) []

/-- The shape of every value the chart generator returns: a chart object or
the "no data" message descriptor. -/
structure ChartResult where
  type : String
  labels : List String
  datasetLabel : Option String
  dataVals : List Int
  noData : Bool
  message : Option String
  titleText : Option String
deriving Repr, DecidableEq

/-- The descriptor `{ type: 'message', message, noData: true }`. -/
def noDataDescriptor (msg : String) : ChartResult :=
  { type := "message", labels := [], datasetLabel := none, dataVals := [],
    noData := true, message := some msg, titleText := none }

/-- Model of `generateLineChart`: sorts by `new Date(a.date) - new Date(b.date)`
(`dateVal` abstracts the JS date-to-milliseconds parse; `Array.prototype.sort`
is stable, as is insertion sort), labels the dates, data `item.fatigue || 0`.
-/
def generateLineChart (dateVal : String → Int) (emotionData : List Row) :
    ChartResult :=
  let sortedData := emotionData.insertionSort
    (fun a b => dateVal (a.date.getD "") ≤ dateVal (b.date.getD ""))
  { type := "line",
    labels := sortedData.map (fun r => r.date.getD ""),
    datasetLabel := some "피로도",
    dataVals := sortedData.map (fun r => jsOrNum r.fatigue 0),
    noData := false, message := none,
    titleText := some "주간 감정 변화 추이" }

/-- Model of `generateBarChart`: occurrence counts per emotion label. -/
def generateBarChart (emotionData : List Row) : ChartResult :=
  let counts := emotionCounts emotionData
  { type := "bar",
    labels := counts.map (fun p => p.1),
    datasetLabel := some "빈도",
    dataVals := counts.map (fun p => (p.2 : Int)),
    noData := false, message := none,
    titleText := some "월간 감정 분포" }

/-- Model of `generatePieChart`: same counts as bar, pie kind, no dataset label. -/
def generatePieChart (emotionData : List Row) : ChartResult :=
  let counts := emotionCounts emotionData
  { type := "pie",
    labels := counts.map (fun p => p.1),
    datasetLabel := none,
    dataVals := counts.map (fun p => (p.2 : Int)),
    noData := false, message := none,
    titleText := some "일일 감정 비율" }

/-- Model of `generateRadarChart`: same counts as a single radar series. -/
def generateRadarChart (emotionData : List Row) : ChartResult :=
  let counts := emotionCounts emotionData
  { type := "radar",
    labels := counts.map (fun p => p.1),
    datasetLabel := some "감정 빈도",
    dataVals := counts.map (fun p => (p.2 : Int)),
    noData := false, message := none,
    titleText := some "감정 비교 분석" }

/-- Model of `generateChartData(emotionData, chartType)`. -/
def generateChartData (dateVal : String → Int) (emotionData : List Row)
    (chartType : String) : ChartResult :=
  if emotionData.isEmpty then
    noDataDescriptor "해당 기간에 차트를 생성할 수 있는 데이터가 없습니다."
  else if chartType = "line" then generateLineChart dateVal emotionData
  else if chartType = "bar" then generateBarChart emotionData
  else if chartType = "pie" then generatePieChart emotionData
  else if chartType = "radar" then generateRadarChart emotionData
  else generateLineChart dateVal emotionData

/-- The validity filter of `generateEmotionChart`:
`if (!item.date || !item.fatigue) return false;
 if (isNaN(new Date(item.date).getTime())) return false; return true`.
`parses` abstracts "`new Date(s)` yields a valid time value". -/
def validRow (parses : String → Bool) (item : Row) : Bool :=
  if !truthyStr item.date || !truthyNum item.fatigue then false
  else if !parses (item.date.getD "") then false
  else true

/-- Model of `generateEmotionChart(emotionData, question)`. -/
def generateEmotionChart (parses : String → Bool) (dateVal : String → Int)
    (emotionData : List Row) (question : String) : ChartResult :=
  if emotionData.isEmpty then
    noDataDescriptor "해당 기간에 차트를 생성할 수 있는 데이터가 없습니다."
  else
    let validData := emotionData.filter (validRow parses)
    if validData.isEmpty then
      noDataDescriptor "해당 기간에 유효한 데이터가 없어서 차트를 생성할 수 없습니다."
    else
      generateChartData dateVal validData (selectChartTypeByRule question)

/-- A concrete member of the `parses` family: strict `YYYY-MM-DD`, a format
`new Date` always parses; used to instantiate closed evaluations. -/
def isValidDateString (s : String) : Bool :=
  match s.data with
  | [y1, y2, y3, y4, h1, m1, m2, h2, d1, d2] =>
    [y1, y2, y3, y4, m1, m2, d1, d2].all Char.isDigit
      && h1 = '-' && h2 = '-'
      && (let m := (m1.toNat - 48) * 10 + (m2.toNat - 48)
          let d := (d1.toNat - 48) * 10 + (d2.toNat - 48)
          1 ≤ m && m ≤ 12 && 1 ≤ d && d ≤ 31)
  | _ => false

/-! ## `chatService.js`: `getDateRangeDisplay` (lines 599-616) -/

def getDateRangeDisplay (intent : Intent) (koreaNow : Date) : String :=
  if intent.analysisType = some "specific" && truthyStr intent.timeRange then
    if intent.timeRange = some "today" then koreaNow.fmt
    else if intent.timeRange = some "yesterday" then (koreaNow.subDays 1).fmt
    else koreaNow.fmt
  else if truthyStr intent.fromDate && truthyStr intent.toDate then
    intent.fromDate.getD "" ++ " ~ " ++ intent.toDate.getD ""
  else
    "최근 " ++ toString (jsOrNum intent.periodValue 1) ++ jsOrStr intent.periodType "month"

/-! ## `chatService.js`: `handleRequest` (lines 427-504), data path

`handleRequest` fetches `data`, short-circuits when it is empty, otherwise
calls `analyzeData` (an external model call) and optionally the chart
generator. The embedding takes the fetched rows and the oracles as
parameters and returns the JSON response together with whether `analyzeData`
was invoked. -/

structure ChatResponse where
  aiResponse : String
  analysisType : String
  dateRange : String
  isAnalysis : Bool
  chartData : Option ChartResult
deriving Repr, DecidableEq

def handleRequestModel (intent : Intent) (data : List Row) (question : String)
    (analyzeResult : String) (parses : String → Bool) (dateVal : String → Int)
    (koreaNow : Date) : ChatResponse × Bool :=
  if data.isEmpty then
    ({ aiResponse := "해당 기간에 기록이 없습니다. 먼저 기록을 추가해주세요.",
       analysisType := jsOrStr intent.analysisType "period",
       dateRange := getDateRangeDisplay intent koreaNow,
       isAnalysis := intent.isAnalysisRequest,
       chartData := some (noDataDescriptor
         "해당 기간에 차트를 생성할 수 있는 데이터가 없습니다.") }, false)
  else
    let chart := if intent.needsChart then
        some (generateEmotionChart parses dateVal data question)
      else none
    ({ aiResponse := analyzeResult,
       analysisType := jsOrStr intent.analysisType "period",
       dateRange := getDateRangeDisplay intent koreaNow,
       isAnalysis := intent.isAnalysisRequest,
       chartData := chart }, true)

/-! ## `chatService.js`: `handleChatRequest` (lines 619-677), as an event
trace

The observable structure of a request: validation, then the intent-analysis
model call inside `analyzeUserIntent`, then the `chat_messages` insert, then
(only if the insert succeeded) `handleSmartRequest`: the needs-data model
call, and either the simple-reply model call or the records query and
(rows permitting) the `analyzeData` model call. -/

/-- The JSON body's `message` field: a string, or any non-string value. -/
inductive JsVal
  | str (s : String)
  | other
deriving Repr, DecidableEq

/-- Model of `String.prototype.trim`: strip leading and trailing whitespace. -/
def jsTrim (s : String) : String :=
  ⟨((s.data.dropWhile Char.isWhitespace).reverse.dropWhile
      Char.isWhitespace).reverse⟩

/-- Model of `typeof message === 'string' ? message.trim() : ''`. -/
def jsMessageTrim : JsVal → String
  | .str s => jsTrim s
  | .other => ""

/-- External calls and critical DB operations of one request, in order. -/
inductive Ev
  | modelIntent
  | dbInsertMessage
  | modelNeedsData
  | modelSimple
  | dbQueryRecords
  | modelAnalyze
deriving Repr, DecidableEq

/-- Which events are external model (OpenAI) calls. -/
def Ev.isModelCall : Ev → Bool
  | .modelIntent => true
  | .modelNeedsData => true
  | .modelSimple => true
  | .modelAnalyze => true
  | _ => false

structure TraceResult where
  status : Nat
  errorMsg : Option String
  events : List Ev
deriving Repr, DecidableEq

def handleChatRequestTrace (message : JsVal) (insertOk : Bool)
    (needsData : Bool) (dataEmpty : Bool) : TraceResult :=
  if (jsMessageTrim message).isEmpty then
    { status := 400, errorMsg := some "Message is required", events := [] }
  else
    let pre := [Ev.modelIntent, Ev.dbInsertMessage]
    if !insertOk then
      { status := 500, errorMsg := some "메시지 저장 실패", events := pre }
    else if !needsData then
      { status := 200, errorMsg := none,
        events := pre ++ [Ev.modelNeedsData, Ev.modelSimple] }
    else if dataEmpty then
      { status := 200, errorMsg := none,
        events := pre ++ [Ev.modelNeedsData, Ev.dbQueryRecords] }
    else
      { status := 200, errorMsg := none,
        events := pre ++ [Ev.modelNeedsData, Ev.dbQueryRecords, Ev.modelAnalyze] }

/-! ## `chatService.js`: `cleanupOldCharts` (lines 177-232)

The `saved_charts` rows of one user are a list (`user_id` filtering is the
restriction to that list). The cleanup counts them and, when over the cap,
selects the `count - maxCharts` oldest by `created_at` ascending and deletes
those ids. The embedding returns the remaining table and the deleted ids. -/

structure SavedChart where
  id : Nat
  createdAt : Int
deriving Repr, DecidableEq

def byCreatedAt (a b : SavedChart) : Prop := a.createdAt ≤ b.createdAt

instance : DecidableRel byCreatedAt := fun a b => by
  unfold byCreatedAt; infer_instance

instance : IsTotal SavedChart byCreatedAt :=
  ⟨fun a b => Int.le_total a.createdAt b.createdAt⟩

instance : IsTrans SavedChart byCreatedAt :=
  ⟨fun _ _ _ h h' => Int.le_trans h h'⟩

def cleanupOldCharts (charts : List SavedChart) (maxCharts : Nat) :
    List SavedChart × List Nat :=
  let count := charts.length
  if count > maxCharts then
    let deleteCount := count - maxCharts
    let oldCharts := (charts.insertionSort byCreatedAt).take deleteCount
    let idsToDelete := oldCharts.map (fun c => c.id)
    (charts.filter (fun c => !(idsToDelete.contains c.id)), idsToDelete)
  else
    (charts, [])

/-! ## `chatService.js`: `getChatHistory` (lines 680-717)

`chat_messages` rows of the queried user, `order('created_at', ascending)`
then `limit(20)`; the response carries the rows and their count. -/

structure ChatMessage where
  userChat : String
  aiAnswer : Option String
  createdAt : Int
deriving Repr, DecidableEq

def byMsgCreatedAt (a b : ChatMessage) : Prop := a.createdAt ≤ b.createdAt

instance : DecidableRel byMsgCreatedAt := fun a b => by
  unfold byMsgCreatedAt; infer_instance

instance : IsTotal ChatMessage byMsgCreatedAt :=
  ⟨fun a b => Int.le_total a.createdAt b.createdAt⟩

instance : IsTrans ChatMessage byMsgCreatedAt :=
  ⟨fun _ _ _ h h' => Int.le_trans h h'⟩

def getChatHistoryModel (messages : List ChatMessage) :
    List ChatMessage × Nat :=
  let chatHistory := (messages.insertionSort byMsgCreatedAt).take 20
  (chatHistory, chatHistory.length)

/-! ## Concrete inputs and observation helpers used by the theorems -/

/-- An intent that refutes clause (c) of C1: `timeRange` is neither
`today` nor `yesterday`, `analysisType` is `'period'` (not `'custom'`), yet
both dates are present in the intent. -/
def c1CexIntent : Intent :=
  { isAnalysisRequest := true, needsRecords := true, needsChatHistory := false,
    needsChart := true, isSimpleGreeting := false,
    timeRange := some "recent", topic := none, analysisType := some "period",
    periodType := none, periodValue := none,
    fromDate := some "2024-01-01", toDate := some "2024-02-02" }

/-- A `today` intent for the C1 witness. -/
def c1TodayIntent : Intent :=
  { isAnalysisRequest := true, needsRecords := true, needsChatHistory := false,
    needsChart := true, isSimpleGreeting := false,
    timeRange := some "today", topic := none, analysisType := some "custom",
    periodType := none, periodValue := none,
    fromDate := some "2020-01-01", toDate := some "2020-12-31" }

/-- An intent with no dates and no period for the C1 witness. -/
def c1FallbackIntent : Intent :=
  { isAnalysisRequest := false, needsRecords := true, needsChatHistory := true,
    needsChart := false, isSimpleGreeting := false,
    timeRange := some "recent", topic := none, analysisType := none,
    periodType := none, periodValue := none, fromDate := none, toDate := none }

/-- A row with both `date` and `fatigue` present and a parseable date, whose
fatigue score is `0` — a meaningful value on the code's own 0-5 scale
("전혀 안 피곤"). -/
def c5Row : Row :=
  { date := some "2024-01-01", title := none, notes := none,
    fatigue := some 0, emotion := some "기쁨" }

/-- A row missing its date, for the C5 witness. -/
def c5NoDateRow : Row :=
  { date := none, title := none, notes := none,
    fatigue := some 3, emotion := some "슬픔" }

/-- The tallied count of a label in an association list
(`acc[e] || 0` read-back, first match). -/
def lookupCount : List (String × Nat) → String → Nat
  | [], _ => 0
  | p :: l, e => if p.1 = e then p.2 else lookupCount l e

/-- Whether an association list carries a key (`e in acc`). -/
def hasKey : List (String × Nat) → String → Bool
  | [], _ => false
  | p :: l, e => p.1 = e || hasKey l e

/-- A 21-chart table with distinct ids for the C6 witness. -/
def c6Charts : List SavedChart :=
  (List.range 21).map (fun i => { id := i, createdAt := (i : Int) })

/-! ## Theorems -/

/-- C2: for every `periodValue` and every `periodType` in
`{day, week, month, year}`, `calculateDateRange` returns `toDate` equal to the
current date and `fromDate` equal to the current date minus `periodValue`
units of `periodType`, both formatted as calendar dates (`YYYY-MM-DD`, no
time component); for any other `periodType` it returns no result; and it is a
pure function of `(periodType, periodValue, now)` — being a Lean function of
exactly these arguments, same inputs yield the same dates and there are no
side effects. -/
theorem calculateDateRange_spec (periodType : String) (periodValue : Int)
    (now : Date) :
    (periodType ∈ (["day", "week", "month", "year"] : List String) →
      calculateDateRange periodType periodValue now =
        some { fromDate := (subtractPeriod periodType periodValue now).fmt,
               toDate := now.fmt }) ∧
    (periodType ∉ (["day", "week", "month", "year"] : List String) →
      calculateDateRange periodType periodValue now = none) := by
  constructor
  · intro hmem
    simp only [List.mem_cons, List.mem_singleton, List.not_mem_nil, or_false] at hmem
    rcases hmem with rfl | rfl | rfl | rfl <;> rfl
  · intro hmem
    simp only [List.mem_cons, List.mem_singleton, List.not_mem_nil, or_false,
      not_or] at hmem
    obtain ⟨h1, h2, h3, h4⟩ := hmem
    unfold calculateDateRange
    rw [if_neg h1, if_neg h2, if_neg h3, if_neg h4]

/-- C2 witness: `calculateDateRange` evaluated through the theorem at a
recognized and at an unrecognized period type. -/
theorem calculateDateRange_spec_witness :
    calculateDateRange "week" 2 (Date.mk 2024 10 11) =
      some { fromDate := "2024-09-27", toDate := "2024-10-11" } ∧
    calculateDateRange "decade" 3 (Date.mk 2024 10 11) = none := by
  constructor
  · have h := (calculateDateRange_spec "week" 2 (Date.mk 2024 10 11)).1
      (by decide)
    rw [h]
    rfl
  · exact (calculateDateRange_spec "decade" 3 (Date.mk 2024 10 11)).2 (by decide)

/-- C4: chart type selection is a deterministic pure function of the question
text alone (a Lean function of the question string), and for every question
it agrees with the specification's keyword table: change/trend/flow/pattern
(변화/추이/흐름/패턴) → line, else distribution/frequency (분포/빈도/얼마나/몇번)
→ bar, else ratio/composition (비율/구성/퍼센트/비중) → pie, else compare
(비교/대조/vs/대비) → radar, else line; including the spec's four examples. -/
theorem selectChartTypeByRule_spec (question : String) :
    selectChartTypeByRule question = specChartTypeTable question ∧
    selectChartTypeByRule "감정 변화 보여줘" = "line" ∧
    selectChartTypeByRule "감정 분포는?" = "bar" ∧
    selectChartTypeByRule "비율이 어때" = "pie" ∧
    selectChartTypeByRule "이전과 비교해줘" = "radar" := by
  refine ⟨?_, by decide, by decide, by decide, by decide⟩
  simp only [selectChartTypeByRule, specChartTypeTable, List.any_cons,
    List.any_nil, Bool.or_false, Bool.or_assoc]

/-- C1 counterexample: with `timeRange = 'recent'` and
`analysisType = 'period'` (so neither the today/yesterday branch nor the
custom branch applies), the claim says the window falls back to the
date-range resolver (one month: `2024-09-11 ~ 2024-10-11` at the chosen
`now`), but `getData` uses the intent's `fromDate`/`toDate`
(`2024-01-01 ~ 2024-02-02`). -/
theorem getDataWindow_counterexample :
    getDataWindow c1CexIntent (Date.mk 2024 10 11) (Date.mk 2024 10 11) =
      some ("2024-01-01", "2024-02-02") ∧
    calculateDateRange (jsOrStr c1CexIntent.periodType "month")
        (jsOrNum c1CexIntent.periodValue 1) (Date.mk 2024 10 11) =
      some { fromDate := "2024-09-11", toDate := "2024-10-11" } ∧
    c1CexIntent.timeRange ≠ some "today" ∧
    c1CexIntent.timeRange ≠ some "yesterday" ∧
    c1CexIntent.analysisType ≠ some "custom" ∧
    (("2024-01-01", "2024-02-02") : String × String) ≠
      ("2024-09-11", "2024-10-11") := by
  refine ⟨by decide, by decide, by decide, by decide, by decide, by decide⟩

/-- C1 amended: (a) `today`/`yesterday` time ranges force the window to that
single Korea-time calendar day, overriding everything else; (b) otherwise,
when both `fromDate` and `toDate` are present in the intent they are used
verbatim — whether or not `analysisType == 'custom'`; (c) otherwise each
missing bound falls back to the date-range resolver with
`periodType`/`periodValue` defaulting to one month; and (d) when the
resolver yields nothing (truthy unrecognized `periodType`) and a bound is
missing, `getData` throws (no window). -/
theorem getDataWindow_amended (intent : Intent) (koreaNow now : Date) :
    (intent.timeRange = some "today" →
      getDataWindow intent koreaNow now = some (koreaNow.fmt, koreaNow.fmt)) ∧
    (intent.timeRange = some "yesterday" →
      getDataWindow intent koreaNow now =
        some ((koreaNow.subDays 1).fmt, (koreaNow.subDays 1).fmt)) ∧
    (intent.timeRange ≠ some "today" → intent.timeRange ≠ some "yesterday" →
      truthyStr intent.fromDate = true → truthyStr intent.toDate = true →
      getDataWindow intent koreaNow now =
        some (intent.fromDate.getD "", intent.toDate.getD "")) ∧
    (intent.timeRange ≠ some "today" → intent.timeRange ≠ some "yesterday" →
      ∀ r, calculateDateRange (jsOrStr intent.periodType "month")
          (jsOrNum intent.periodValue 1) now = some r →
        getDataWindow intent koreaNow now =
          some (jsOrStr intent.fromDate r.fromDate,
                jsOrStr intent.toDate r.toDate)) ∧
    (intent.timeRange ≠ some "today" → intent.timeRange ≠ some "yesterday" →
      calculateDateRange (jsOrStr intent.periodType "month")
          (jsOrNum intent.periodValue 1) now = none →
      (truthyStr intent.fromDate = false ∨ truthyStr intent.toDate = false) →
      getDataWindow intent koreaNow now = none) := by
  refine ⟨?_, ?_, ?_, ?_, ?_⟩
  · intro h
    simp [getDataWindow, h]
  · intro h
    simp [getDataWindow, h]
  · intro h1 h2 hf ht
    by_cases hc : intent.analysisType = some "custom"
    · simp [getDataWindow, h1, h2, hc, hf, ht]
    · simp [getDataWindow, h1, h2, hc, hf, ht]
  · intro h1 h2 r hr
    by_cases hc : intent.analysisType = some "custom"
      <;> by_cases hf : truthyStr intent.fromDate
      <;> by_cases ht : truthyStr intent.toDate
      <;> simp_all [getDataWindow, jsOrStr]
  · intro h1 h2 hnone hfalsy
    rcases hfalsy with hf | ht
    · have hc : ¬(decide (intent.analysisType = some "custom")
          && truthyStr intent.fromDate && truthyStr intent.toDate) = true := by
        simp [hf]
      by_cases ht : truthyStr intent.toDate
        <;> simp_all [getDataWindow, hnone]
    · have hc : ¬(decide (intent.analysisType = some "custom")
          && truthyStr intent.fromDate && truthyStr intent.toDate) = true := by
        simp [ht]
      by_cases hf : truthyStr intent.fromDate
        <;> simp_all [getDataWindow, hnone]

/-- C1 witness: the amended theorem evaluated on a `today` intent (custom
dates overridden) and on a date-less intent (one-month resolver fallback). -/
theorem getDataWindow_amended_witness :
    getDataWindow c1TodayIntent (Date.mk 2024 10 11) (Date.mk 2024 10 11) =
      some ("2024-10-11", "2024-10-11") ∧
    getDataWindow c1FallbackIntent (Date.mk 2024 10 11) (Date.mk 2024 10 11) =
      some ("2024-09-11", "2024-10-11") := by
  constructor
  · have h := (getDataWindow_amended c1TodayIntent (Date.mk 2024 10 11)
      (Date.mk 2024 10 11)).1 (by decide)
    rw [h]
    rfl
  · have h := (getDataWindow_amended c1FallbackIntent (Date.mk 2024 10 11)
      (Date.mk 2024 10 11)).2.2.2.1 (by decide) (by decide)
      { fromDate := "2024-09-11", toDate := "2024-10-11" } (by decide)
    rw [h]
    rfl

/-- C3: on the data path, when the fetched row sequence is empty,
`handleRequest` responds with the fixed Korean "no records" reply and a
`chartData` object with `noData: true` and type `'message'`, and `analyzeData`
is never invoked (the second output component records whether the external
composition call happened); the response does not depend on the analysis
oracle's value. -/
theorem handleRequest_empty_noRecords (intent : Intent)
    (question analyzeResult analyzeResult' : String) (parses : String → Bool)
    (dateVal : String → Int) (koreaNow : Date) :
    (handleRequestModel intent [] question analyzeResult parses dateVal
        koreaNow).1.aiResponse =
      "해당 기간에 기록이 없습니다. 먼저 기록을 추가해주세요." ∧
    (handleRequestModel intent [] question analyzeResult parses dateVal
        koreaNow).1.chartData =
      some (noDataDescriptor "해당 기간에 차트를 생성할 수 있는 데이터가 없습니다.") ∧
    (noDataDescriptor "해당 기간에 차트를 생성할 수 있는 데이터가 없습니다.").noData = true ∧
    (noDataDescriptor "해당 기간에 차트를 생성할 수 있는 데이터가 없습니다.").type = "message" ∧
    (handleRequestModel intent [] question analyzeResult parses dateVal
        koreaNow).2 = false ∧
    handleRequestModel intent [] question analyzeResult parses dateVal koreaNow =
      handleRequestModel intent [] question analyzeResult' parses dateVal
        koreaNow := by
  refine ⟨rfl, rfl, rfl, rfl, rfl, rfl⟩

/-- Helper: `generateChartData` always yields one of the five result kinds. -/
theorem generateChartData_type_mem (dateVal : String → Int) (ed : List Row)
    (ct : String) :
    (generateChartData dateVal ed ct).type ∈
      (["message", "line", "bar", "pie", "radar"] : List String) := by
  unfold generateChartData
  split_ifs <;>
    simp [generateLineChart, generateBarChart, generatePieChart,
      generateRadarChart, noDataDescriptor]

/-- C5 counterexample: the row has `date` and `fatigue` present and a
parseable date, so the claim says it is retained, but the filter
(`!item.fatigue` is true for the number `0`) drops it, and the chart
degrades to the "no valid data" descriptor. -/
theorem generateEmotionChart_counterexample :
    c5Row.date.isSome = true ∧ c5Row.fatigue.isSome = true ∧
    isValidDateString (c5Row.date.getD "") = true ∧
    validRow isValidDateString c5Row = false ∧
    generateEmotionChart isValidDateString (fun _ => 0) [c5Row] "감정 변화 보여줘" =
      noDataDescriptor "해당 기간에 유효한 데이터가 없어서 차트를 생성할 수 없습니다." := by
  refine ⟨rfl, rfl, by decide, by decide, by decide⟩

/-- C5 amended: the validity filter excludes exactly those rows whose `date`
is missing or empty, or whose `fatigue` is missing or zero (JS falsiness),
or whose date does not parse; an empty input yields the "no data" descriptor;
if zero rows survive the filter the result is the "no valid data" descriptor
with `noData: true`; and the function is total — on every input the result is
one of the five chart kinds (it never throws). -/
theorem generateEmotionChart_filter_amended (parses : String → Bool)
    (dateVal : String → Int) (rows : List Row) (question : String) :
    (∀ r, validRow parses r =
      (truthyStr r.date && truthyNum r.fatigue && parses (r.date.getD ""))) ∧
    (rows = [] → generateEmotionChart parses dateVal rows question =
      noDataDescriptor "해당 기간에 차트를 생성할 수 있는 데이터가 없습니다.") ∧
    (rows ≠ [] → rows.filter (validRow parses) = [] →
      generateEmotionChart parses dateVal rows question =
        noDataDescriptor "해당 기간에 유효한 데이터가 없어서 차트를 생성할 수 없습니다.") ∧
    ((generateEmotionChart parses dateVal rows question).type ∈
      (["message", "line", "bar", "pie", "radar"] : List String)) := by
  refine ⟨?_, ?_, ?_, ?_⟩
  · intro r
    cases hd : truthyStr r.date <;> cases hf : truthyNum r.fatigue <;>
      cases hp : parses (r.date.getD "") <;> simp [validRow, hd, hf, hp]
  · intro h
    subst h
    rfl
  · intro hne hfil
    have h0 : rows.isEmpty = false := by
      simpa [List.isEmpty_iff] using hne
    simp [generateEmotionChart, h0, hfil]
  · by_cases he : rows.isEmpty
    · simp [generateEmotionChart, he, noDataDescriptor]
    · by_cases hv : (rows.filter (validRow parses)).isEmpty
      · simp [generateEmotionChart, he, hv, noDataDescriptor]
      · simpa [generateEmotionChart, he, hv] using
          generateChartData_type_mem dateVal (rows.filter (validRow parses))
            (selectChartTypeByRule question)

/-- C5 witness: the amended theorem evaluated on the empty input and on a
single row whose date is missing. -/
theorem generateEmotionChart_filter_amended_witness :
    generateEmotionChart isValidDateString (fun _ => 0) [] "감정 변화 보여줘" =
      noDataDescriptor "해당 기간에 차트를 생성할 수 있는 데이터가 없습니다." ∧
    generateEmotionChart isValidDateString (fun _ => 0) [c5NoDateRow] "감정 변화 보여줘" =
      noDataDescriptor "해당 기간에 유효한 데이터가 없어서 차트를 생성할 수 없습니다." := by
  constructor
  · exact (generateEmotionChart_filter_amended isValidDateString (fun _ => 0)
      [] "감정 변화 보여줘").2.1 rfl
  · exact (generateEmotionChart_filter_amended isValidDateString (fun _ => 0)
      [c5NoDateRow] "감정 변화 보여줘").2.2.1 (by decide) (by decide)

/-- C7 counterexample: with a valid message and a failing `chat_messages`
insert, the response is HTTP 500 — but one external model call (the
intent-analysis call inside `analyzeUserIntent`) has already been made
before the insert, so the request is not aborted "before any external model
call". -/
theorem handleChatRequest_insertFail_counterexample :
    (handleChatRequestTrace (JsVal.str "오늘 기록 분석해줘") false true false).status
      = 500 ∧
    ((handleChatRequestTrace (JsVal.str "오늘 기록 분석해줘") false true
      false).events.filter Ev.isModelCall).length = 1 ∧
    (handleChatRequestTrace (JsVal.str "오늘 기록 분석해줘") false true
      false).events = [Ev.modelIntent, Ev.dbInsertMessage] := by
  refine ⟨by decide, by decide, by decide⟩

/-- C7 amended: if persisting the inbound chat message fails,
`handleChatRequest` responds with HTTP 500 ("메시지 저장 실패") and aborts the
request before any further external model call — the needs-data check, the
simple-reply call and the analysis call never happen; the intent-analysis
model call has already been attempted before the insert. -/
theorem handleChatRequest_insertFail_amended (message : JsVal)
    (needsData dataEmpty : Bool)
    (hmsg : (jsMessageTrim message).isEmpty = false) :
    handleChatRequestTrace message false needsData dataEmpty =
      { status := 500, errorMsg := some "메시지 저장 실패",
        events := [Ev.modelIntent, Ev.dbInsertMessage] } ∧
    Ev.modelNeedsData ∉
      (handleChatRequestTrace message false needsData dataEmpty).events ∧
    Ev.modelSimple ∉
      (handleChatRequestTrace message false needsData dataEmpty).events ∧
    Ev.modelAnalyze ∉
      (handleChatRequestTrace message false needsData dataEmpty).events := by
  have h : handleChatRequestTrace message false needsData dataEmpty =
      { status := 500, errorMsg := some "메시지 저장 실패",
        events := [Ev.modelIntent, Ev.dbInsertMessage] } := by
    simp [handleChatRequestTrace, hmsg]
  refine ⟨h, ?_, ?_, ?_⟩ <;> simp [h]

/-- C7 witness: the amended theorem evaluated at a concrete message with a
failing insert. -/
theorem handleChatRequest_insertFail_amended_witness :
    handleChatRequestTrace (JsVal.str "이번 주 패턴 보여줘") false true true =
      { status := 500, errorMsg := some "메시지 저장 실패",
        events := [Ev.modelIntent, Ev.dbInsertMessage] } :=
  (handleChatRequest_insertFail_amended (JsVal.str "이번 주 패턴 보여줘") true true
    (by decide)).1

/-- C8: for every request whose `message` is absent, not a string, empty, or
whitespace-only, `handleChatRequest` returns HTTP 400 with an error body and
performs no downstream calls at all — no intent analysis, no database
insert, no model calls (the event trace is empty). -/
theorem handleChatRequest_badMessage (message : JsVal)
    (insertOk needsData dataEmpty : Bool)
    (h : (jsMessageTrim message).isEmpty = true) :
    handleChatRequestTrace message insertOk needsData dataEmpty =
      { status := 400, errorMsg := some "Message is required",
        events := [] } := by
  simp [handleChatRequestTrace, h]

/-- C8 witness: the theorem evaluated on a whitespace-only message and on a
non-string message. -/
theorem handleChatRequest_badMessage_witness :
    handleChatRequestTrace (JsVal.str "   ") true true false =
      { status := 400, errorMsg := some "Message is required",
        events := [] } ∧
    handleChatRequestTrace JsVal.other false false true =
      { status := 400, errorMsg := some "Message is required",
        events := [] } :=
  ⟨handleChatRequest_badMessage (JsVal.str "   ") true true false (by decide),
   handleChatRequest_badMessage JsVal.other false false true (by decide)⟩

/-! Helper lemmas for the emotion tally (`bump` / `emotionCounts`). -/

theorem any_eq_hasKey (l : List (String × Nat)) (x : String) :
    l.any (fun p => p.1 = x) = hasKey l x := by
  induction l with
  | nil => rfl
  | cons p l ih => simp [hasKey, ih]

theorem lookupCount_map_incr (x e : String) (l : List (String × Nat)) :
    lookupCount (l.map (fun p => if p.1 = x then (p.1, p.2 + 1) else p)) e =
      lookupCount l e + (if e = x ∧ hasKey l e = true then 1 else 0) := by
  induction l with
  | nil => simp [lookupCount, hasKey]
  | cons p l ih =>
    by_cases hpx : p.1 = x <;> by_cases hpe : p.1 = e
    · have hex : e = x := hpe.symm.trans hpx
      simp [lookupCount, hasKey, hpx, hpe, hex]
    · have hxe : ¬x = e := fun h => hpe (hpx.trans h)
      simp [lookupCount, hasKey, hpx, hpe, hxe, ih]
    · have hex : ¬e = x := fun h => hpx (hpe.trans h)
      simp [lookupCount, hasKey, hpx, hpe, hex]
    · simp [lookupCount, hasKey, hpx, hpe, ih]

theorem lookupCount_append_new (x e : String) (l : List (String × Nat))
    (h : hasKey l x = false) :
    lookupCount (l ++ [(x, 1)]) e =
      lookupCount l e + (if x = e then 1 else 0) := by
  induction l with
  | nil => by_cases hxe : x = e <;> simp [lookupCount, hxe]
  | cons p l ih =>
    simp only [hasKey, Bool.or_eq_false_iff, decide_eq_false_iff_not] at h
    obtain ⟨hpx, hl⟩ := h
    by_cases hpe : p.1 = e
    · have hxe : ¬x = e := fun hh => hpx (hpe.trans hh.symm)
      simp [lookupCount, hpe, hxe]
    · simp [lookupCount, hpe, ih hl]

theorem bump_lookupCount (acc : List (String × Nat)) (x e : String) :
    lookupCount (bump acc x) e =
      lookupCount acc e + (if x = e then 1 else 0) := by
  by_cases h : acc.any (fun p => p.1 = x)
  · rw [bump, if_pos h, lookupCount_map_incr]
    by_cases hex : e = x
    · subst hex
      have hk : hasKey acc e = true := by rw [← any_eq_hasKey]; exact h
      simp [hk]
    · have hxe : ¬x = e := fun hh => hex hh.symm
      simp [hex, hxe]
  · have hk : hasKey acc x = false := by
      rw [← any_eq_hasKey]
      exact Bool.eq_false_iff.mpr h
    rw [bump, if_neg h, lookupCount_append_new x e acc hk]

theorem emotionCounts_foldl_lookupCount (rows : List Row)
    (acc : List (String × Nat)) (e : String) :
    lookupCount
        (rows.foldl (fun a r => bump a (jsOrStr r.emotion "정보없음")) acc) e =
      lookupCount acc e +
        (rows.filter (fun r => jsOrStr r.emotion "정보없음" = e)).length := by
  induction rows generalizing acc with
  | nil => simp
  | cons r rows ih =>
    rw [List.foldl_cons, ih, bump_lookupCount]
    by_cases hb : jsOrStr r.emotion "정보없음" = e
    · simp [List.filter_cons, hb]
      omega
    · simp [List.filter_cons, hb]

/-- C9: for every row list, the bar and pie chart generators produce
identical label sequences and identical data arrays — the occurrence count
per emotion label, with a missing label bucketed under "정보없음" (the tally
characterization below counts exactly the rows bucketed to each label) —
differing only in the chart type (and fixed presentational fields), and the
radar generator reuses those same per-emotion counts as its single series. -/
theorem barPieRadar_agree (rows : List Row) :
    (generatePieChart rows).labels = (generateBarChart rows).labels ∧
    (generatePieChart rows).dataVals = (generateBarChart rows).dataVals ∧
    (generateRadarChart rows).labels = (generateBarChart rows).labels ∧
    (generateRadarChart rows).dataVals = (generateBarChart rows).dataVals ∧
    (generateBarChart rows).type = "bar" ∧
    (generatePieChart rows).type = "pie" ∧
    (generateRadarChart rows).type = "radar" ∧
    (generateBarChart rows).labels =
      (emotionCounts rows).map (fun p => p.1) ∧
    (generateBarChart rows).dataVals =
      (emotionCounts rows).map (fun p => (p.2 : Int)) ∧
    (∀ e, lookupCount (emotionCounts rows) e =
      (rows.filter (fun r => jsOrStr r.emotion "정보없음" = e)).length) := by
  refine ⟨rfl, rfl, rfl, rfl, rfl, rfl, rfl, rfl, rfl, ?_⟩
  intro e
  simpa [lookupCount] using emotionCounts_foldl_lookupCount rows [] e

/-- C10: `getChatHistory` returns at most 20 messages, ordered ascending by
`created_at`; the `count` field of the response always equals the length of
the returned `chatHistory` array; and a user with no messages gets an empty
history with count 0, not an error. -/
theorem getChatHistory_spec (messages : List ChatMessage) :
    (getChatHistoryModel messages).1.length ≤ 20 ∧
    (getChatHistoryModel messages).2 = (getChatHistoryModel messages).1.length ∧
    List.Sorted byMsgCreatedAt (getChatHistoryModel messages).1 ∧
    (messages = [] → (getChatHistoryModel messages).1 = [] ∧
      (getChatHistoryModel messages).2 = 0) := by
  refine ⟨?_, rfl, ?_, ?_⟩
  · simp [getChatHistoryModel]
  · have hs : List.Sorted byMsgCreatedAt
        (messages.insertionSort byMsgCreatedAt) :=
      List.sorted_insertionSort byMsgCreatedAt messages
    exact List.Pairwise.sublist
      (List.take_sublist 20 (messages.insertionSort byMsgCreatedAt)) hs
  · intro h
    subst h
    exact ⟨rfl, rfl⟩

/-- C10 witness: the theorem evaluated on the empty message table. -/
theorem getChatHistory_spec_witness :
    (getChatHistoryModel []).1 = [] ∧ (getChatHistoryModel []).2 = 0 :=
  (getChatHistory_spec []).2.2.2 rfl

theorem contains_iff_mem (l : List Nat) (x : Nat) :
    l.contains x = true ↔ x ∈ l := by
  simp [List.contains_iff_exists_mem_beq]

/-- C6: after `cleanupOldCharts` runs for a user (cap 20), the user's saved
chart count never exceeds 20; when the count was within the cap nothing is
touched; and when it exceeded the cap, exactly the `count - 20` excess rows
are deleted, chosen oldest-first by creation time (every deleted row's
`created_at` is ≤ every surviving row's `created_at`). Chart ids are
database primary keys, hence pairwise distinct. -/
theorem cleanupOldCharts_spec (charts : List SavedChart)
    (hnodup : (charts.map SavedChart.id).Nodup) :
    (cleanupOldCharts charts 20).1.length ≤ 20 ∧
    (charts.length ≤ 20 → cleanupOldCharts charts 20 = (charts, [])) ∧
    (charts.length > 20 →
      (cleanupOldCharts charts 20).1.length = 20 ∧
      (cleanupOldCharts charts 20).2.length = charts.length - 20 ∧
      (∀ c ∈ charts, c.id ∈ (cleanupOldCharts charts 20).2 →
        ∀ c' ∈ (cleanupOldCharts charts 20).1,
          c.createdAt ≤ c'.createdAt)) := by
  by_cases hlen : charts.length > 20
  · have hperm : List.Perm (charts.insertionSort byCreatedAt) charts :=
      List.perm_insertionSort byCreatedAt charts
    have hsorted : List.Sorted byCreatedAt (charts.insertionSort byCreatedAt) :=
      List.sorted_insertionSort byCreatedAt charts
    have hlensorted : (charts.insertionSort byCreatedAt).length = charts.length :=
      hperm.length_eq
    have hsplit :
        (charts.insertionSort byCreatedAt).take (charts.length - 20) ++
          (charts.insertionSort byCreatedAt).drop (charts.length - 20) =
          charts.insertionSort byCreatedAt :=
      List.take_append_drop _ _
    have hcleanup : cleanupOldCharts charts 20 =
        (charts.filter (fun c =>
          !(List.contains (((charts.insertionSort byCreatedAt).take
              (charts.length - 20)).map (fun c => c.id)) c.id)),
         ((charts.insertionSort byCreatedAt).take
            (charts.length - 20)).map (fun c => c.id)) := by
      unfold cleanupOldCharts
      rw [if_pos hlen]
    have hnodupSorted :
        ((charts.insertionSort byCreatedAt).map SavedChart.id).Nodup :=
      ((hperm.map SavedChart.id).nodup_iff).mpr hnodup
    have hnodupPR :
        (((charts.insertionSort byCreatedAt).take (charts.length - 20)).map
            SavedChart.id ++
          ((charts.insertionSort byCreatedAt).drop (charts.length - 20)).map
            SavedChart.id).Nodup := by
      rw [← List.map_append, hsplit]
      exact hnodupSorted
    have hdisj :
        (((charts.insertionSort byCreatedAt).take (charts.length - 20)).map
            SavedChart.id).Disjoint
          (((charts.insertionSort byCreatedAt).drop (charts.length - 20)).map
            SavedChart.id) :=
      (List.nodup_append.mp hnodupPR).2.2
    have hfilterP :
        ((charts.insertionSort byCreatedAt).take (charts.length - 20)).filter
          (fun c => !(List.contains (((charts.insertionSort
            byCreatedAt).take (charts.length - 20)).map (fun c => c.id))
            c.id)) = [] := by
      rw [List.filter_eq_nil_iff]
      intro a ha
      have hc : List.contains (((charts.insertionSort byCreatedAt).take
          (charts.length - 20)).map (fun c => c.id)) a.id = true :=
        (contains_iff_mem _ _).mpr (List.mem_map_of_mem _ ha)
      rw [hc]
      decide
    have hfilterR :
        ((charts.insertionSort byCreatedAt).drop (charts.length - 20)).filter
          (fun c => !(List.contains (((charts.insertionSort
            byCreatedAt).take (charts.length - 20)).map (fun c => c.id))
            c.id)) =
          (charts.insertionSort byCreatedAt).drop (charts.length - 20) := by
      rw [List.filter_eq_self]
      intro a ha
      have hnotin : a.id ∉ ((charts.insertionSort byCreatedAt).take
          (charts.length - 20)).map (fun c => c.id) :=
        fun hin => hdisj hin (List.mem_map_of_mem _ ha)
      have hfalse : List.contains (((charts.insertionSort byCreatedAt).take
          (charts.length - 20)).map (fun c => c.id)) a.id = false :=
        Bool.eq_false_iff.mpr (fun hc => hnotin ((contains_iff_mem _ _).mp hc))
      rw [hfalse]
      decide
    have hfilterSorted :
        (charts.insertionSort byCreatedAt).filter
          (fun c => !(List.contains (((charts.insertionSort
            byCreatedAt).take (charts.length - 20)).map (fun c => c.id))
            c.id)) =
          (charts.insertionSort byCreatedAt).drop (charts.length - 20) := by
      have h2 : ((charts.insertionSort byCreatedAt).take (charts.length - 20) ++
          (charts.insertionSort byCreatedAt).drop (charts.length - 20)).filter
            (fun c => !(List.contains (((charts.insertionSort
              byCreatedAt).take (charts.length - 20)).map (fun c => c.id))
              c.id)) =
          (charts.insertionSort byCreatedAt).drop (charts.length - 20) := by
        rw [List.filter_append, hfilterP, hfilterR, List.nil_append]
      rw [hsplit] at h2
      exact h2
    have hpermfilter :
        List.Perm
          (charts.filter (fun c => !(List.contains (((charts.insertionSort
            byCreatedAt).take (charts.length - 20)).map (fun c => c.id))
            c.id)))
          ((charts.insertionSort byCreatedAt).drop (charts.length - 20)) := by
      have h1 := hperm.filter (fun c => !(List.contains
        (((charts.insertionSort byCreatedAt).take (charts.length - 20)).map
          (fun c => c.id)) c.id))
      rw [hfilterSorted] at h1
      exact h1.symm
    have hlenR : ((charts.insertionSort byCreatedAt).drop
        (charts.length - 20)).length = 20 := by
      rw [List.length_drop, hlensorted]
      omega
    have hlenRemaining :
        (charts.filter (fun c => !(List.contains (((charts.insertionSort
            byCreatedAt).take (charts.length - 20)).map (fun c => c.id))
            c.id))).length = 20 :=
      hpermfilter.length_eq.trans hlenR
    refine ⟨?_, fun h => absurd hlen (Nat.not_lt.mpr h), fun _ => ⟨?_, ?_, ?_⟩⟩
    · rw [hcleanup]
      exact Nat.le_of_eq hlenRemaining
    · rw [hcleanup]
      exact hlenRemaining
    · rw [hcleanup]
      simp only [List.length_map, List.length_take, hlensorted]
      omega
    · intro c hc hcid c' hc'
      rw [hcleanup] at hcid hc'
      obtain ⟨p, hpP, hpid⟩ := List.mem_map.mp hcid
      have hcsorted : c ∈ charts.insertionSort byCreatedAt :=
        hperm.mem_iff.mpr hc
      have hpsorted : p ∈ charts.insertionSort byCreatedAt :=
        List.take_subset _ _ hpP
      have hpc : p = c :=
        List.inj_on_of_nodup_map hnodupSorted hpsorted hcsorted hpid
      have hcP : c ∈ (charts.insertionSort byCreatedAt).take
          (charts.length - 20) := hpc ▸ hpP
      have hc'R : c' ∈ (charts.insertionSort byCreatedAt).drop
          (charts.length - 20) := hpermfilter.mem_iff.mp hc'
      have hpw := (List.pairwise_append.mp (hsplit.symm ▸ hsorted)).2.2
      exact hpw c hcP c' hc'R
  · have hle : charts.length ≤ 20 := Nat.le_of_not_lt hlen
    have heq : cleanupOldCharts charts 20 = (charts, []) := by
      unfold cleanupOldCharts
      rw [if_neg hlen]
    exact ⟨by rw [heq]; exact hle, fun _ => heq, fun h => absurd h hlen⟩

/-- C6 witness: the theorem evaluated on a concrete 21-row table. -/
theorem cleanupOldCharts_spec_witness :
    (cleanupOldCharts c6Charts 20).1.length = 20 ∧
    (cleanupOldCharts c6Charts 20).2.length = 1 :=
  ⟨((cleanupOldCharts_spec c6Charts (by decide)).2.2 (by decide)).1,
   ((cleanupOldCharts_spec c6Charts (by decide)).2.2 (by decide)).2.1⟩

end Emotions
